import Mathlib

/-!
# Verification of the imgui-rs viewport/monitor patch layer

Shallow embedding of `src/imgui/src/viewport_issue_fix.rs`,
`src/imgui/src/monitor_init_fix.rs` and `src/imgui/src/platform_io.rs`.

The code under verification only moves values around: it ORs one bit into
two 32-bit flag words, copies `f32` fields from `MonitorData` into
`PlatformMonitor` records stored in the platform-IO monitor vector, and
performs null-pointer checks.  Accordingly:

* 32-bit flag words (`ImGuiIO::ConfigFlags` on the native side and the
  Rust `ConfigFlags` bitflags word) are modelled as their bit patterns,
  `Nat` values; `|=` is `Nat.lor` (`|||`), `&` is `Nat.land` (`&&&`),
  which agree with the two's-complement `i32` operations bit for bit.
* `f32` scalar fields are never computed with, only copied, so they are
  modelled by an abstract carrier type `V` (with a `Zero` instance where
  the source writes the literal `0.0`).
* Raw pointers are modelled as `Nat` addresses with `0` for null; the
  pointees live in an explicit heap function where one is dereferenced.
* Fields of the native structures that this module never touches are
  abstracted into `rest` components of type parameters `R`, `S`, `P`,
  so that frame conditions ("every other field is unchanged") are
  expressible.
* `sys::igGetIO()` / `sys::igGetPlatformIO()` returning a null pointer is
  modelled by an `Option`: `none` is the null pointer, `some` holds the
  pointed-to state.
* `ImVector<PlatformMonitor>.replace_from_slice` (imgui-rs internal code
  outside the patch files; its `Size` field is the element count) replaces
  the vector contents with the slice contents, so the monitor vector is a
  `List` and replacement is wholesale substitution.
-/

namespace ImguiFix

/-- Bit pattern of `sys::ImGuiConfigFlags_ViewportsEnable` (`1 << 10` in
the native enum); the Rust `ConfigFlags::VIEWPORTS_ENABLE` bitflag uses
the same bit, and the source casts the enum value with `as i32`. -/
def ViewportsEnableBit : Nat := 1024

/-- Rust `bitflags` `contains` on 32-bit flag words: every bit of `mask`
is present in `flags`. -/
def configFlagsContains (flags mask : Nat) : Bool :=
  flags &&& mask == mask

/-- The Rust-side view of the IO state (`ctx.io()` / `ctx.io_mut()`):
the `config_flags` word, with every other field of `Io` abstracted into
`rest`, which the patch functions never touch. -/
structure RustIo (S : Type) where
  config_flags : Nat
  rest : S
deriving DecidableEq

/-- The native `ImGuiIO` structure behind `sys::igGetIO()`: the
`ConfigFlags` word, with every other field abstracted into `rest`. -/
structure NativeIo (R : Type) where
  ConfigFlags : Nat
  rest : R
deriving DecidableEq

/-- `monitor_init_fix::MonitorData` (scalars drawn from the abstract
`f32` carrier `V`). -/
structure MonitorData (V : Type) where
  position : V × V
  size : V × V
  work_pos : V × V
  work_size : V × V
  dpi_scale : V
deriving DecidableEq

/-- `PlatformMonitor` (= native `ImGuiPlatformMonitor`), as stored in the
platform-IO monitor vector.  `platform_handle` is a raw pointer,
modelled as a `Nat` address with `0` for null. -/
structure PlatformMonitor (V : Type) where
  main_pos : V × V
  main_size : V × V
  work_pos : V × V
  work_size : V × V
  dpi_scale : V
  platform_handle : Nat
deriving DecidableEq

/-- The native `ImGuiPlatformIO` structure behind `sys::igGetPlatformIO()`:
the `monitors` vector, with the callback fields and the viewport vector
(which the patch functions never touch) abstracted into `rest`. -/
structure PlatformIo (V P : Type) where
  monitors : List (PlatformMonitor V)
  rest : P
deriving DecidableEq

/-- The state a `&mut Context` gives access to: the Rust-side IO view and
the two native singletons, each `none` when the corresponding
`sys::igGet…` call returns a null pointer. -/
structure Context (V R S P : Type) where
  io : RustIo S
  native_io : Option (NativeIo R)
  platform_io : Option (PlatformIo V P)
deriving DecidableEq

/-- `viewport_issue_fix::apply_viewport_fix`: OR the viewports-enable bit
into the Rust-side `config_flags`, then, if `sys::igGetIO()` is non-null,
OR the same bit into the native `ConfigFlags`. -/
def apply_viewport_fix {V R S P : Type} (ctx : Context V R S P) :
    Context V R S P :=
  { ctx with
    io := { ctx.io with
            config_flags := ctx.io.config_flags ||| ViewportsEnableBit }
    native_io := ctx.native_io.map fun nio =>
      { nio with ConfigFlags := nio.ConfigFlags ||| ViewportsEnableBit } }

/-- `viewport_issue_fix::is_viewport_issue_present`: true when the Rust
side expects `VIEWPORTS_ENABLE` but the native `ConfigFlags` lacks the
bit; false when `sys::igGetIO()` is null. -/
def is_viewport_issue_present {V R S P : Type} (ctx : Context V R S P) :
    Bool :=
  match ctx.native_io with
  | some nio =>
      let cpp_has_flag := (nio.ConfigFlags &&& ViewportsEnableBit) != 0
      let rust_expects_flag :=
        configFlagsContains ctx.io.config_flags ViewportsEnableBit
      rust_expects_flag && !cpp_has_flag
  | none => false

/-- The per-monitor conversion inside `monitor_init_fix::init_monitors`:
copy the five scalar fields and set a null `platform_handle`. -/
def monitorDataToPlatformMonitor {V : Type} (data : MonitorData V) :
    PlatformMonitor V :=
  { main_pos := data.position
    main_size := data.size
    work_pos := data.work_pos
    work_size := data.work_size
    dpi_scale := data.dpi_scale
    platform_handle := 0 }

/-- `monitor_init_fix::init_monitors`: if `sys::igGetPlatformIO()` is
null, return with no effect; otherwise replace the platform-IO monitor
vector with the converted slice. -/
def init_monitors {V R S P : Type} (ctx : Context V R S P)
    (monitors : List (MonitorData V)) : Context V R S P :=
  match ctx.platform_io with
  | none => ctx
  | some platform_io =>
      { ctx with
        platform_io := some
          { platform_io with
            monitors := monitors.map monitorDataToPlatformMonitor } }

/-- `monitor_init_fix::init_single_monitor`: build the one-element
`MonitorData` slice at position `[0,0]` with `work_size` equal to `size`
and delegate to `init_monitors`. -/
def init_single_monitor {V R S P : Type} [Zero V] (ctx : Context V R S P)
    (width height dpi_scale : V) : Context V R S P :=
  let monitor : MonitorData V :=
    { position := (0, 0)
      size := (width, height)
      work_pos := (0, 0)
      work_size := (width, height)
      dpi_scale := dpi_scale }
  init_monitors ctx [monitor]

/-- `monitor_init_fix::clear_monitors`: if `sys::igGetPlatformIO()` is
null, return with no effect; otherwise replace the monitor vector with
the empty slice. -/
def clear_monitors {V R S P : Type} (ctx : Context V R S P) :
    Context V R S P :=
  match ctx.platform_io with
  | none => ctx
  | some platform_io =>
      { ctx with platform_io := some { platform_io with monitors := [] } }

/-- `monitor_init_fix::monitors_initialized`: false when
`sys::igGetPlatformIO()` is null, otherwise whether the vector's `Size`
field (its element count) is positive. -/
def monitors_initialized {V R S P : Type} (ctx : Context V R S P) : Bool :=
  match ctx.platform_io with
  | none => false
  | some platform_io => decide (0 < platform_io.monitors.length)

/-- `monitor_init_fix::monitor_count`: 0 when `sys::igGetPlatformIO()`
is null, otherwise the vector's `Size` field (its element count). -/
def monitor_count {V R S P : Type} (ctx : Context V R S P) : Nat :=
  match ctx.platform_io with
  | none => 0
  | some platform_io => platform_io.monitors.length

/-- The monitor list currently stored in the platform IO (empty when
`sys::igGetPlatformIO()` is null): the observation the regression tests
read back through `ImVector::Size`/`Data`. -/
def stored_monitors {V R S P : Type} (ctx : Context V R S P) :
    List (PlatformMonitor V) :=
  match ctx.platform_io with
  | none => []
  | some platform_io => platform_io.monitors

/-- `platform_io::Viewport` (= native `ImGuiViewport`), docking layout.
Raw pointers are `Nat` addresses with `0` for null; the draw-data
pointee is looked up in an explicit heap when dereferenced. -/
structure Viewport (V : Type) where
  id : Nat
  flags : Nat
  pos : V × V
  size : V × V
  work_pos : V × V
  work_size : V × V
  dpi_scale : V
  parent_viewport_id : Nat
  draw_data_ptr : Nat
  renderer_user_data : Nat
  platform_user_data : Nat
  platform_handle : Nat
  platform_handle_raw : Nat
  platform_window_created : Bool
  platform_request_move : Bool
  platform_request_resize : Bool
  platform_request_close : Bool
deriving DecidableEq

/-- `Viewport::draw_data`: `None` when the internal `draw_data` pointer
is null, otherwise `Some` of the pointee; the heap is consulted only on
the non-null branch, so a null pointer is never dereferenced. -/
def Viewport.draw_data {V D : Type} (v : Viewport V) (heap : Nat → D) :
    Option D :=
  if v.draw_data_ptr = 0 then none else some (heap v.draw_data_ptr)

/-- The constant `IMGUI_VIEWPORT_DEFAULT_ID` from `Viewport::is_main`. -/
def IMGUI_VIEWPORT_DEFAULT_ID : Nat := 0x11111111

/-- `Viewport::is_main`: the viewport's id equals the native library's
default main-viewport ID. -/
def Viewport.is_main {V : Type} (v : Viewport V) : Bool :=
  v.id == IMGUI_VIEWPORT_DEFAULT_ID

/-! ## Bit-level helper lemmas -/

/-- ORing a mask in makes every bit of the mask present. -/
theorem lor_and_self (x m : Nat) : (x ||| m) &&& m = m := by
  apply Nat.eq_of_testBit_eq
  intro k
  rw [Nat.testBit_and, Nat.testBit_or]
  cases hm : m.testBit k <;> simp [hm]

/-- ORing the same mask in twice is the same as once. -/
theorem lor_lor_self (x m : Nat) : (x ||| m) ||| m = x ||| m := by
  apply Nat.eq_of_testBit_eq
  intro k
  simp [Nat.testBit_or, Bool.or_assoc]

/-- The viewports-enable mask is the single bit 10. -/
theorem testBit_viewportsEnableBit {k : Nat} (hk : k ≠ 10) :
    Nat.testBit ViewportsEnableBit k = false := by
  have h : ViewportsEnableBit = 2 ^ 10 := by norm_num [ViewportsEnableBit]
  rw [h, Nat.testBit_two_pow]
  simp [Ne.symm hk]

/-! ## Concrete fixtures used by the witness theorems -/

/-- A concrete monitor description with distinguishable field values. -/
def mdA : MonitorData Int :=
  { position := (1, 2), size := (3, 4), work_pos := (5, 6),
    work_size := (7, 8), dpi_scale := 9 }

/-- A concrete platform IO with no monitors. -/
def pioA : PlatformIo Int Unit := { monitors := [], rest := () }

/-- A concrete context whose two native pointers are non-null. -/
def ctxA : Context Int Unit Unit Unit :=
  { io := { config_flags := 0, rest := () }
    native_io := some { ConfigFlags := 0, rest := () }
    platform_io := some pioA }

/-- A concrete context whose two native pointers are null. -/
def ctxNull : Context Int Unit Unit Unit :=
  { io := { config_flags := 1024, rest := () }
    native_io := none
    platform_io := none }

/-- A concrete main viewport (null draw-data pointer). -/
def vpMain : Viewport Int :=
  { id := 0x11111111, flags := 0, pos := (0, 0), size := (1, 1),
    work_pos := (0, 0), work_size := (1, 1), dpi_scale := 1,
    parent_viewport_id := 0, draw_data_ptr := 0,
    renderer_user_data := 0, platform_user_data := 0,
    platform_handle := 0, platform_handle_raw := 0,
    platform_window_created := false, platform_request_move := false,
    platform_request_resize := false, platform_request_close := false }

/-- A concrete secondary viewport (non-null draw-data pointer). -/
def vpSecondary : Viewport Int :=
  { vpMain with id := 5, flags := 3, draw_data_ptr := 7 }

/-- The secondary viewport with its id set back to the default main id:
it differs from `vpMain` in every pointer and flag field. -/
def vpMainAlt : Viewport Int := { vpSecondary with id := 0x11111111 }

/-! ## Claim theorems -/

/-- C1: after `apply_viewport_fix`, the Rust-side `config_flags` contains
`VIEWPORTS_ENABLE`, and whenever the native IO pointer is non-null the
native `ConfigFlags` has the `ViewportsEnable` bit set — for every prior
state of both flag words. -/
theorem apply_viewport_fix_sets_viewports_enable {V R S P : Type}
    (ctx : Context V R S P) :
    configFlagsContains (apply_viewport_fix ctx).io.config_flags
      ViewportsEnableBit = true ∧
    ∀ nio : NativeIo R, (apply_viewport_fix ctx).native_io = some nio →
      (nio.ConfigFlags &&& ViewportsEnableBit) ≠ 0 := by
  constructor
  · simp [apply_viewport_fix, configFlagsContains, lor_and_self]
  · intro nio h
    cases hn : ctx.native_io with
    | none => simp [apply_viewport_fix, hn] at h
    | some nio0 =>
        simp [apply_viewport_fix, hn] at h
        rw [← h]
        simp [lor_and_self, ViewportsEnableBit]

/-- Witness for C1 at a concrete context whose native pointer is
non-null and whose flag words start at zero. -/
theorem apply_viewport_fix_sets_viewports_enable_witness :
    configFlagsContains (apply_viewport_fix ctxA).io.config_flags
      ViewportsEnableBit = true ∧
    (({ ConfigFlags := 1024, rest := () } : NativeIo Unit).ConfigFlags &&&
      ViewportsEnableBit) ≠ 0 :=
  ⟨(apply_viewport_fix_sets_viewports_enable ctxA).1,
   (apply_viewport_fix_sets_viewports_enable ctxA).2
     { ConfigFlags := 1024, rest := () } (by decide)⟩

/-- C3: immediately after `apply_viewport_fix`, the detector
`is_viewport_issue_present` returns false, for every prior state. -/
theorem viewport_issue_absent_after_fix {V R S P : Type}
    (ctx : Context V R S P) :
    is_viewport_issue_present (apply_viewport_fix ctx) = false := by
  cases hn : ctx.native_io with
  | none => simp [is_viewport_issue_present, apply_viewport_fix, hn]
  | some nio =>
      simp [is_viewport_issue_present, apply_viewport_fix, hn,
        lor_and_self, ViewportsEnableBit]

/-- C4: `apply_viewport_fix` changes at most the `VIEWPORTS_ENABLE` bit
of the Rust-side `config_flags` and the `ViewportsEnable` bit of the
native `ConfigFlags`: every other flag bit (any bit index other than
10), the remaining Rust-side IO fields, the remaining native IO fields,
and the whole platform IO are unchanged; and the fix is idempotent. -/
theorem apply_viewport_fix_frame_and_idempotent {V R S P : Type}
    (ctx : Context V R S P) (k : Nat) (hk : k ≠ 10) :
    (apply_viewport_fix ctx).io.config_flags.testBit k
        = ctx.io.config_flags.testBit k ∧
    (apply_viewport_fix ctx).io.rest = ctx.io.rest ∧
    (apply_viewport_fix ctx).native_io.map
        (fun nio => nio.ConfigFlags.testBit k)
      = ctx.native_io.map (fun nio => nio.ConfigFlags.testBit k) ∧
    (apply_viewport_fix ctx).native_io.map (fun nio => nio.rest)
      = ctx.native_io.map (fun nio => nio.rest) ∧
    (apply_viewport_fix ctx).platform_io = ctx.platform_io ∧
    apply_viewport_fix (apply_viewport_fix ctx) = apply_viewport_fix ctx := by
  refine ⟨?_, rfl, ?_, ?_, rfl, ?_⟩
  · simp [apply_viewport_fix, Nat.testBit_or, testBit_viewportsEnableBit hk]
  · cases hn : ctx.native_io with
    | none => simp [apply_viewport_fix, hn]
    | some nio =>
        simp [apply_viewport_fix, hn, Nat.testBit_or,
          testBit_viewportsEnableBit hk]
  · cases hn : ctx.native_io with
    | none => simp [apply_viewport_fix, hn]
    | some nio => simp [apply_viewport_fix, hn]
  · cases hn : ctx.native_io with
    | none => simp [apply_viewport_fix, hn, lor_lor_self]
    | some nio => simp [apply_viewport_fix, hn, lor_lor_self]

/-- Witness for C4 at a concrete context and the concrete spared bit
index 0. -/
theorem apply_viewport_fix_frame_and_idempotent_witness :
    (0 : Nat) ≠ 10 ∧
    apply_viewport_fix (apply_viewport_fix ctxA) = apply_viewport_fix ctxA :=
  ⟨by decide,
   (apply_viewport_fix_frame_and_idempotent ctxA 0 (by decide)).2.2.2.2.2⟩

/-- C5: when the native pointer a workaround function consults is null,
the function returns normally with its neutral result and changes no
state: with `sys::igGetPlatformIO()` null, `init_monitors`,
`init_single_monitor` and `clear_monitors` return the context
unchanged, `monitors_initialized` returns false and `monitor_count`
returns 0; with `sys::igGetIO()` null, `is_viewport_issue_present`
returns false. -/
theorem null_io_functions_are_neutral {V R S P : Type} [Zero V]
    (ctx : Context V R S P) (monitors : List (MonitorData V))
    (width height dpi_scale : V) :
    (ctx.platform_io = none →
      init_monitors ctx monitors = ctx ∧
      init_single_monitor ctx width height dpi_scale = ctx ∧
      clear_monitors ctx = ctx ∧
      monitors_initialized ctx = false ∧
      monitor_count ctx = 0) ∧
    (ctx.native_io = none → is_viewport_issue_present ctx = false) := by
  constructor
  · intro hp
    refine ⟨?_, ?_, ?_, ?_, ?_⟩ <;>
      simp [init_monitors, init_single_monitor, clear_monitors,
        monitors_initialized, monitor_count, hp]
  · intro hn
    simp [is_viewport_issue_present, hn]

/-- Witness for C5 at a concrete context whose two native pointers are
null. -/
theorem null_io_functions_are_neutral_witness :
    init_monitors ctxNull [mdA] = ctxNull ∧
    is_viewport_issue_present ctxNull = false :=
  ⟨((null_io_functions_are_neutral ctxNull [mdA] 0 0 0).1 rfl).1,
   (null_io_functions_are_neutral ctxNull [mdA] 0 0 0).2 rfl⟩

/-- C2: when the platform-IO pointer is non-null, `init_monitors` stores
exactly the given monitors: `monitor_count` equals the slice length,
the stored `PlatformMonitor` at each index copies `position`, `size`,
`work_pos`, `work_size` and `dpi_scale` from the corresponding
`MonitorData` and has a null `platform_handle`, and
`monitors_initialized` is true exactly when the slice is non-empty. -/
theorem init_monitors_populates_platform_io {V R S P : Type}
    (ctx : Context V R S P) (pio : PlatformIo V P)
    (monitors : List (MonitorData V))
    (hp : ctx.platform_io = some pio) :
    monitor_count (init_monitors ctx monitors) = monitors.length ∧
    (∀ i (hi : i < monitors.length)
        (hi2 : i < (stored_monitors (init_monitors ctx monitors)).length),
      ((stored_monitors (init_monitors ctx monitors)).get ⟨i, hi2⟩).main_pos
          = (monitors.get ⟨i, hi⟩).position ∧
      ((stored_monitors (init_monitors ctx monitors)).get ⟨i, hi2⟩).main_size
          = (monitors.get ⟨i, hi⟩).size ∧
      ((stored_monitors (init_monitors ctx monitors)).get ⟨i, hi2⟩).work_pos
          = (monitors.get ⟨i, hi⟩).work_pos ∧
      ((stored_monitors (init_monitors ctx monitors)).get ⟨i, hi2⟩).work_size
          = (monitors.get ⟨i, hi⟩).work_size ∧
      ((stored_monitors (init_monitors ctx monitors)).get ⟨i, hi2⟩).dpi_scale
          = (monitors.get ⟨i, hi⟩).dpi_scale ∧
      ((stored_monitors (init_monitors ctx monitors)).get
          ⟨i, hi2⟩).platform_handle = 0) ∧
    (monitors_initialized (init_monitors ctx monitors) = true ↔
      monitors ≠ []) := by
  refine ⟨?_, ?_, ?_⟩
  · simp [monitor_count, init_monitors, hp]
  · intro i hi hi2
    refine ⟨?_, ?_, ?_, ?_, ?_, ?_⟩ <;>
      simp [stored_monitors, init_monitors, hp, List.get_eq_getElem,
        monitorDataToPlatformMonitor]
  · simp [monitors_initialized, init_monitors, hp, List.length_pos]

/-- Witness for C2 at a concrete context with a non-null platform-IO
pointer and a one-monitor slice. -/
theorem init_monitors_populates_platform_io_witness :
    monitor_count (init_monitors ctxA [mdA]) = 1 ∧
    (monitors_initialized (init_monitors ctxA [mdA]) = true ↔
      ([mdA] : List (MonitorData Int)) ≠ []) :=
  ⟨(init_monitors_populates_platform_io ctxA pioA [mdA] rfl).1,
   (init_monitors_populates_platform_io ctxA pioA [mdA] rfl).2.2⟩

/-- C6: when the platform-IO pointer is non-null, `clear_monitors`
leaves `monitor_count` at 0 and `monitors_initialized` false, and
`init_monitors` followed by `clear_monitors` restores the same
empty-monitor state as clearing alone. -/
theorem clear_monitors_resets {V R S P : Type}
    (ctx : Context V R S P) (pio : PlatformIo V P)
    (monitors : List (MonitorData V))
    (hp : ctx.platform_io = some pio) :
    monitor_count (clear_monitors ctx) = 0 ∧
    monitors_initialized (clear_monitors ctx) = false ∧
    clear_monitors (init_monitors ctx monitors) = clear_monitors ctx := by
  refine ⟨?_, ?_, ?_⟩ <;>
    simp [clear_monitors, init_monitors, monitor_count,
      monitors_initialized, hp]

/-- Witness for C6 at a concrete context with a non-null platform-IO
pointer. -/
theorem clear_monitors_resets_witness :
    monitor_count (clear_monitors ctxA) = 0 ∧
    clear_monitors (init_monitors ctxA [mdA]) = clear_monitors ctxA :=
  ⟨(clear_monitors_resets ctxA pioA [mdA] rfl).1,
   (clear_monitors_resets ctxA pioA [mdA] rfl).2.2⟩

/-- C7: `init_single_monitor ctx width height dpi_scale` produces
exactly the state of `init_monitors` with the one-element slice at
position `[0,0]`, size and work size `[width,height]`, work position
`[0,0]` and the given DPI scale; when the platform-IO pointer is
non-null the monitor count is 1 afterwards. -/
theorem init_single_monitor_refines_init_monitors {V R S P : Type}
    [Zero V] (ctx : Context V R S P) (width height dpi_scale : V) :
    init_single_monitor ctx width height dpi_scale =
      init_monitors ctx
        [{ position := (0, 0), size := (width, height),
           work_pos := (0, 0), work_size := (width, height),
           dpi_scale := dpi_scale }] ∧
    (ctx.platform_io.isSome = true →
      monitor_count (init_single_monitor ctx width height dpi_scale)
        = 1) := by
  constructor
  · rfl
  · intro hp
    cases hpp : ctx.platform_io with
    | none => rw [hpp] at hp; simp at hp
    | some pio =>
        simp [init_single_monitor, init_monitors, monitor_count, hpp]

/-- Witness for C7 at a concrete context with a non-null platform-IO
pointer. -/
theorem init_single_monitor_refines_init_monitors_witness :
    monitor_count (init_single_monitor ctxA 3 4 9) = 1 :=
  (init_single_monitor_refines_init_monitors ctxA 3 4 9).2 rfl

/-- C9: `Viewport::draw_data` returns `None` exactly when the internal
draw-data pointer is null, and `Some` of the pointed-to draw data when
it is non-null; the heap is only consulted at a non-null address, so a
null pointer is never dereferenced. -/
theorem draw_data_null_safe {V D : Type} (v : Viewport V)
    (heap : Nat → D) :
    (Viewport.draw_data v heap = none ↔ v.draw_data_ptr = 0) ∧
    (v.draw_data_ptr ≠ 0 →
      Viewport.draw_data v heap = some (heap v.draw_data_ptr)) := by
  constructor
  · by_cases h : v.draw_data_ptr = 0 <;> simp [Viewport.draw_data, h]
  · intro h
    simp [Viewport.draw_data, h]

/-- Witness for C9 at a concrete null-pointer viewport and a concrete
non-null-pointer viewport. -/
theorem draw_data_null_safe_witness :
    (Viewport.draw_data vpMain (fun _ => (0 : Int)) = none ↔
      vpMain.draw_data_ptr = 0) ∧
    Viewport.draw_data vpSecondary (fun a => (a : Int)) = some 7 :=
  ⟨(draw_data_null_safe vpMain (fun _ => (0 : Int))).1,
   (draw_data_null_safe vpSecondary (fun a => (a : Int))).2 (by decide)⟩

/-- C10: `Viewport::is_main` returns true exactly when the viewport's id
is the constant `0x11111111`, and its result depends on no field other
than the id. -/
theorem is_main_iff_default_id {V : Type} (v w : Viewport V) :
    (Viewport.is_main v = true ↔ v.id = 0x11111111) ∧
    (v.id = w.id → Viewport.is_main v = Viewport.is_main w) := by
  constructor
  · simp [Viewport.is_main, IMGUI_VIEWPORT_DEFAULT_ID]
  · intro h
    simp [Viewport.is_main, h]

/-- Witness for C10: the concrete default-id viewport is main, and a
viewport differing from it in every non-id field computes `is_main`
identically. -/
theorem is_main_iff_default_id_witness :
    Viewport.is_main vpMain = true ∧
    Viewport.is_main vpMain = Viewport.is_main vpMainAlt :=
  ⟨(is_main_iff_default_id vpMain vpMain).1.mpr rfl,
   (is_main_iff_default_id vpMain vpMainAlt).2 rfl⟩

end ImguiFix
